import Mathlib

/-!
Shallow embedding of `src/ai_bridge.py` (class `AIFullLifecycleBridge`).
External collaborators (shell, HTTP client, clock) are modelled as
explicit oracles in an `Env`; the mutable object state together with the
files, directories and log lines written by the process is the
`BridgeState` record, threaded through every handler.
-/

namespace AIBridge

/-- Does the first list start with the second? (character-list version of
Python `str.startswith`). -/
def beginsWith : List Char → List Char → Bool
  | _, [] => true
  | [], _ :: _ => false
  | a :: as, b :: bs => (a == b) && beginsWith as bs

/-- Does the first list contain the second as a contiguous sublist?
(Python `needle in hay` on strings, over the character lists). -/
def hasSubList : List Char → List Char → Bool
  | [], needle => needle.isEmpty
  | h :: t, needle => beginsWith (h :: t) needle || hasSubList t needle

/-- Python `needle in hay` on strings. -/
def containsStr (hay needle : String) : Bool := hasSubList hay.data needle.data

/-- Python `s.startswith(pre)` on strings. -/
def strHasPre (s pre : String) : Bool := beginsWith s.data pre.data

/-- Strip trailing slash characters (Python `head.rstrip('/')`). -/
def rstripSlashes (l : List Char) : List Char :=
  (l.reverse.dropWhile (fun c => c == '/')).reverse

/-- Final step of `posixpath.dirname`: given `head = p[:p.rfind('/')+1]`,
keep it when it consists of slashes only, otherwise strip its trailing
slashes. -/
def dirnameCore (head : List Char) : List Char :=
  if head.isEmpty then []
  else if head.all (fun c => c == '/') then head
  else rstripSlashes head

/-- Character-list version of `posixpath.dirname`: keep everything up to
and including the last slash, then post-process as CPython does. -/
def dirnameL (l : List Char) : List Char :=
  dirnameCore ((l.reverse.dropWhile (fun c => c != '/')).reverse)

/-- Python `os.path.dirname` (POSIX flavour). -/
def os_path_dirname (p : String) : String := String.mk (dirnameL p.data)

/-- Python `os.path.join` (POSIX flavour, two arguments). -/
def os_path_join (a b : String) : String :=
  if beginsWith b.data ['/'] then b
  else if a = "" then b
  else if beginsWith a.data.reverse ['/'] then a ++ b
  else a ++ "/" ++ b

/-- The directory plus its ancestors, as created by `os.makedirs` with
`exist_ok=True`; fuelled recursion since `dirname` is not structurally
decreasing. -/
def dirChain : String → Nat → List String
  | _, 0 => []
  | d, n + 1 =>
    if d = "" then []
    else d :: (if os_path_dirname d = d then [] else dirChain (os_path_dirname d) n)

/-- Result of `subprocess.run(..., capture_output=True, text=True)`. -/
structure CmdResult where
  returncode : Int
  stdout : String
  stderr : String

/-- Outcome of `requests.get(url, timeout=10)`: either a response carrying
a status code, or a raised exception rendered as its text. -/
inductive HttpResult where
  | success (status_code : Nat)
  | failure (msg : String)
deriving DecidableEq

/-- External collaborators of the bridge: the shell, the HTTP client, and
the `datetime.now().strftime(...)` timestamp used by `backup_project`. -/
structure Env where
  sh : String → CmdResult
  http : String → HttpResult
  timestamp : String

/-- Mutable state of an `AIFullLifecycleBridge` object, together with the
files, directories and log lines written on its behalf. -/
structure BridgeState where
  repo_path : String
  deployment_url : Option String
  monitoring_active : Bool
  fs : List (String × String)
  dirs : List String
  log : List String
deriving DecidableEq

/-- Instruction payload: a JSON object whose possible keys are the ones
the nine handlers read; an absent key raises `KeyError` in Python. -/
structure Payload where
  path : Option String := none
  content : Option String := none
  command : Option String := none
  deploy_type : Option String := none
  url : Option String := none
  issue_type : Option String := none
  feature_name : Option String := none
  files : Option (List (String × String)) := none
  message : Option String := none

/-- The dispatcher's `except` clause applied to a `KeyError` for key `k`:
Python renders `str(KeyError(k))` as the key in single quotes. -/
def keyErr (k : String) : String := "Error: '" ++ k ++ "'"

/-- `log_status`: append one timestamped line to `ai_lifecycle.log` (the
timestamp text is abstracted away; one call appends one record). -/
def logSt (st : BridgeState) (status : String) : BridgeState :=
  { st with log := st.log ++ [status] }

/-- Assoc-list file read: the most recent write to a path wins. -/
def fsLookup : List (String × String) → String → Option String
  | [], _ => none
  | (k, v) :: t, q => if k = q then some v else fsLookup t q

/-- `create_file`: join the path under `repo_path`, make the parent
directories, write the file, log `FILE_CREATED`. -/
def create_file (st : BridgeState) (filepath content : String) : String × BridgeState :=
  let full_path := os_path_join st.repo_path filepath
  let d := os_path_dirname full_path
  let st1 := { st with dirs := dirChain d (d.data.length + 1) ++ st.dirs }
  let st2 := { st1 with fs := (full_path, content) :: st1.fs }
  let st3 := logSt st2 ("FILE_CREATED: " ++ filepath)
  ("✅ Created: " ++ filepath, st3)

/-- Read back a file written under `repo_path` (inverse of `create_file`). -/
def readFile (st : BridgeState) (filepath : String) : Option String :=
  fsLookup st.fs (os_path_join st.repo_path filepath)

/-- `run_command`: run the shell command, build the returned text from the
captured stdout/stderr only, log `COMMAND_RUN`. -/
def run_command (sh : String → CmdResult) (st : BridgeState) (command : String) :
    String × BridgeState :=
  let r := sh command
  let output :=
    if r.stdout ≠ "" ∨ r.stderr ≠ "" then "OUT: " ++ r.stdout ++ "\nERR: " ++ r.stderr
    else "Command executed"
  (output, logSt st ("COMMAND_RUN: " ++ command))

/-- `deploy_project`: log the start, then per deploy type run the fixed
recipe and record the hard-coded endpoint; unknown types fall through. -/
def deploy_project (sh : String → CmdResult) (st : BridgeState) (deploy_type : String) :
    String × BridgeState :=
  let st0 := logSt st ("DEPLOYMENT_STARTED: " ++ deploy_type)
  if deploy_type = "github_pages" then
    let st1 := (run_command sh st0 "gh pages deploy --branch main").2
    let u := "https://yourusername.github.io/your-repo"
    ("✅ GitHub Pages Deployed: " ++ u, { st1 with deployment_url := some u })
  else if deploy_type = "docker" then
    let st1 := (run_command sh st0 "docker build -t app . && docker run -d -p 3000:3000 app").2
    let u := "http://localhost:3000"
    ("✅ Docker Deployed: " ++ u, { st1 with deployment_url := some u })
  else if deploy_type = "vercel" then
    let st1 := (run_command sh st0 "npx vercel --prod").2
    let u := "https://your-app.vercel.app"
    ("✅ Vercel Deployed: " ++ u, { st1 with deployment_url := some u })
  else
    ("✅ Deployment initiated: " ++ deploy_type, st0)

/-- `start_monitoring` (foreground effect): record the URL, raise the
monitoring flag, return the confirmation; the spawned thread's loop body
is `monitorStep`, iterated while the flag stays set. -/
def start_monitoring (st : BridgeState) (url : String) : String × BridgeState :=
  ("🔍 Monitoring started: " ++ url,
   { st with deployment_url := some url, monitoring_active := true })

/-- `check_application_health`: a falsy URL (absent or empty) short
circuits; otherwise one GET, classified by status code, with a raised
exception rendered as its text. -/
def check_application_health (http : String → HttpResult) (st : BridgeState) : String :=
  match st.deployment_url with
  | none => "No deployment URL set"
  | some url =>
    if url = "" then "No deployment URL set"
    else
      match http url with
      | HttpResult.success code =>
        if code = 200 then "✅ Application healthy"
        else "❌ Application issue: HTTP " ++ toString code
      | HttpResult.failure msg => "❌ Application error: " ++ msg

/-- One iteration of the `monitor` closure inside `start_monitoring`:
while the flag is set, check health and log `HEALTH_ISSUE` when the
result contains the literal substring `"ERROR"`. -/
def monitorStep (http : String → HttpResult) (st : BridgeState) : BridgeState :=
  if st.monitoring_active then
    let health := check_application_health http st
    if containsStr health "ERROR" then logSt st ("HEALTH_ISSUE: " ++ health) else st
  else st

/-- `auto_fix_issues`: log, then run the fixed remediation recipe for the
issue type. -/
def auto_fix_issues (sh : String → CmdResult) (st : BridgeState) (issue_type : String) :
    String × BridgeState :=
  let st0 := logSt st ("AUTO_FIXING: " ++ issue_type)
  if issue_type = "build_failure" then
    ("✅ Build dependencies fixed",
     (run_command sh st0 "npm install || pip install -r requirements.txt").2)
  else if issue_type = "deployment_failure" then
    deploy_project sh st0 "github_pages"
  else if issue_type = "database_connection" then
    ("✅ Database issues addressed",
     (create_file st0 "config/fix_database.py"
        "import sqlite3\n# AI-generated database fix\nconn = sqlite3.connect('app.db')\nprint('Database fixed')").2)
  else
    ("✅ Auto-fix attempted for: " ++ issue_type, st0)

/-- `add_feature`: log, write each file of the mapping in order, then
re-run the GitHub Pages deployment. -/
def add_feature (sh : String → CmdResult) (st : BridgeState) (feature_name : String)
    (files : List (String × String)) : String × BridgeState :=
  let st0 := logSt st ("ADDING_FEATURE: " ++ feature_name)
  let st1 := files.foldl (fun s pc => (create_file s pc.1 pc.2).2) st0
  let st2 := (deploy_project sh st1 "github_pages").2
  ("✅ Feature '" ++ feature_name ++ "' added and deployed", st2)

/-- `run_tests`: run the fixed test recipe and wrap its output. -/
def run_tests (sh : String → CmdResult) (st : BridgeState) : String × BridgeState :=
  let r := run_command sh st "python -m pytest || npm test || echo 'No tests found'"
  ("🧪 Tests executed: " ++ r.1, r.2)

/-- `backup_project`: tag with the timestamp-derived name and push tags. -/
def backup_project (sh : String → CmdResult) (timestamp : String) (st : BridgeState) :
    String × BridgeState :=
  let st1 := (run_command sh st ("git tag backup-" ++ timestamp)).2
  let st2 := (run_command sh st1 "git push --tags").2
  ("💾 Backup created: backup-" ++ timestamp, st2)

/-- `git_commit`: stage everything, commit with the message, push. -/
def git_commit (sh : String → CmdResult) (st : BridgeState) (message : String) :
    String × BridgeState :=
  let st1 := (run_command sh st "git add .").2
  let st2 := (run_command sh st1 ("git commit -m \"" ++ message ++ "\"")).2
  let st3 := (run_command sh st2 "git push origin main").2
  ("✅ Committed: " ++ message, st3)

/-- `execute_ai_instruction`: the if/elif dispatch wrapped in `try/except`;
a missing payload key is the `KeyError` surfaced through `keyErr`, and an
unmatched action falls through to Python's implicit `None`. -/
def execute_ai_instruction (env : Env) (st : BridgeState) (instruction_type : String)
    (payload : Payload) : Option String × BridgeState :=
  if instruction_type = "CREATE_FILE" then
    match payload.path with
    | none => (some (keyErr "path"), st)
    | some path =>
      match payload.content with
      | none => (some (keyErr "content"), st)
      | some content =>
        (some (create_file st path content).1, (create_file st path content).2)
  else if instruction_type = "RUN_COMMAND" then
    match payload.command with
    | none => (some (keyErr "command"), st)
    | some command =>
      (some (run_command env.sh st command).1, (run_command env.sh st command).2)
  else if instruction_type = "DEPLOY_PROJECT" then
    match payload.deploy_type with
    | none => (some (keyErr "deploy_type"), st)
    | some dt =>
      (some (deploy_project env.sh st dt).1, (deploy_project env.sh st dt).2)
  else if instruction_type = "START_MONITORING" then
    match payload.url with
    | none => (some (keyErr "url"), st)
    | some u =>
      (some (start_monitoring st u).1, (start_monitoring st u).2)
  else if instruction_type = "CHECK_HEALTH" then
    (some (check_application_health env.http st), st)
  else if instruction_type = "AUTO_FIX_ISSUES" then
    match payload.issue_type with
    | none => (some (keyErr "issue_type"), st)
    | some it =>
      (some (auto_fix_issues env.sh st it).1, (auto_fix_issues env.sh st it).2)
  else if instruction_type = "ADD_FEATURE" then
    match payload.feature_name with
    | none => (some (keyErr "feature_name"), st)
    | some fn =>
      match payload.files with
      | none => (some (keyErr "files"), st)
      | some fl =>
        (some (add_feature env.sh st fn fl).1, (add_feature env.sh st fn fl).2)
  else if instruction_type = "GIT_COMMIT" then
    match payload.message with
    | none => (some (keyErr "message"), st)
    | some m =>
      (some (git_commit env.sh st m).1, (git_commit env.sh st m).2)
  else if instruction_type = "RUN_TESTS" then
    (some (run_tests env.sh st).1, (run_tests env.sh st).2)
  else if instruction_type = "BACKUP_PROJECT" then
    (some (backup_project env.sh env.timestamp st).1, (backup_project env.sh env.timestamp st).2)
  else
    (none, st)

/-- Fold a sequence of dispatched instructions through the bridge state. -/
def execList (env : Env) (st : BridgeState) : List (String × Payload) → BridgeState
  | [] => st
  | (ty, p) :: rest => execList env (execute_ai_instruction env st ty p).2 rest

/-- Bridge state right after `__init__` (which logs `FULL_LIFECYCLE_ACTIVE`
through `setup_bridge`). -/
def initState (repo : String) : BridgeState :=
  { repo_path := repo, deployment_url := none, monitoring_active := false,
    fs := [], dirs := [], log := ["FULL_LIFECYCLE_ACTIVE"] }

/-- The instruction names one of the seven key-reading actions and its
payload lacks a required key (the `KeyError` precondition). -/
def missingRequired (ty : String) (p : Payload) : Prop :=
  (ty = "CREATE_FILE" ∧ (p.path = none ∨ p.content = none)) ∨
  (ty = "RUN_COMMAND" ∧ p.command = none) ∨
  (ty = "DEPLOY_PROJECT" ∧ p.deploy_type = none) ∨
  (ty = "START_MONITORING" ∧ p.url = none) ∨
  (ty = "AUTO_FIX_ISSUES" ∧ p.issue_type = none) ∨
  (ty = "ADD_FEATURE" ∧ (p.feature_name = none ∨ p.files = none)) ∨
  (ty = "GIT_COMMIT" ∧ p.message = none)

/-- A recognized action whose required payload keys are all present. -/
def validInstr (ty : String) (p : Payload) : Prop :=
  (ty = "CREATE_FILE" ∧ p.path.isSome = true ∧ p.content.isSome = true) ∨
  (ty = "RUN_COMMAND" ∧ p.command.isSome = true) ∨
  (ty = "DEPLOY_PROJECT" ∧ p.deploy_type.isSome = true) ∨
  (ty = "START_MONITORING" ∧ p.url.isSome = true) ∨
  ty = "CHECK_HEALTH" ∨
  (ty = "AUTO_FIX_ISSUES" ∧ p.issue_type.isSome = true) ∨
  (ty = "ADD_FEATURE" ∧ p.feature_name.isSome = true ∧ p.files.isSome = true) ∨
  (ty = "GIT_COMMIT" ∧ p.message.isSome = true) ∨
  ty = "RUN_TESTS" ∨
  ty = "BACKUP_PROJECT"

/-- Shell oracle: every command exits 0 with empty output. -/
def shQuiet : String → CmdResult := fun _ => { returncode := 0, stdout := "", stderr := "" }

/-- Shell oracle: every command exits 1 with empty output. -/
def shFail : String → CmdResult := fun _ => { returncode := 1, stdout := "", stderr := "" }

/-- HTTP oracle answering 200 everywhere. -/
def http200 : String → HttpResult := fun _ => HttpResult.success 200

/-- HTTP oracle answering 500 everywhere. -/
def http500 : String → HttpResult := fun _ => HttpResult.success 500

/-- HTTP oracle raising a connection error everywhere. -/
def httpFail : String → HttpResult := fun _ => HttpResult.failure "connection refused"

/-- Default environment for concrete runs. -/
def env0 : Env := { sh := shQuiet, http := httpFail, timestamp := "20240101_000000" }

/-- Payload carrying no keys. -/
def emptyPayload : Payload := {}

/-- Bridge state with a recorded deployment URL. -/
def stUrl : BridgeState := { initState "/repo" with deployment_url := some "http://localhost:3000" }

/-- Bridge state with a recorded URL and monitoring active. -/
def stMon : BridgeState := { stUrl with monitoring_active := true }

/-- Does an optional result hold a string starting with the given text? -/
def optHasPre (o : Option String) (pre : String) : Bool :=
  match o with
  | none => false
  | some s => strHasPre s pre

/-- Does an optional result hold a non-empty string? -/
def optNonEmpty (o : Option String) : Bool :=
  match o with
  | none => false
  | some s => s != ""

/-! ### Generic string and character-list lemmas -/

theorem strDataAppend (a b : String) : (a ++ b).data = a.data ++ b.data := by
  cases a; cases b; rfl

theorem strEqEmpty (s : String) (h : s.data = []) : s = "" := by
  cases s with
  | mk l =>
    simp only at h
    subst h
    rfl

theorem appendNeEmpty (a b : String) (h : a ≠ "") : a ++ b ≠ "" := by
  intro hab
  apply h
  apply strEqEmpty
  have h2 := congrArg String.data hab
  rw [strDataAppend] at h2
  exact (List.append_eq_nil.mp h2).1

theorem beginsWith_nil (hay : List Char) : beginsWith hay [] = true := by
  cases hay <;> rfl

theorem beginsWith_refl (l : List Char) : beginsWith l l = true := by
  induction l with
  | nil => rfl
  | cons h t ih => simp [beginsWith, ih]

theorem beginsWith_append (n : List Char) : ∀ a b : List Char,
    beginsWith a n = true → beginsWith (a ++ b) n = true := by
  induction n with
  | nil => intro a b _; exact beginsWith_nil _
  | cons c cs ih =>
    intro a b h
    cases a with
    | nil => simp [beginsWith] at h
    | cons x xs =>
      simp only [List.cons_append]
      simp [beginsWith, Bool.and_eq_true] at h ⊢
      exact ⟨h.1, ih xs b h.2⟩

theorem hasSubList_nil (hay : List Char) : hasSubList hay [] = true := by
  cases hay with
  | nil => rfl
  | cons h t => simp [hasSubList, beginsWith_nil]

theorem hasSubList_suffix (a b : List Char) : hasSubList (a ++ b) b = true := by
  induction a with
  | nil =>
    cases b with
    | nil => rfl
    | cons h t =>
      simp only [List.nil_append]
      simp [hasSubList, beginsWith_refl]
  | cons x xs ih =>
    simp [hasSubList, ih]

theorem hasSubList_extend (n : List Char) : ∀ a b : List Char,
    hasSubList a n = true → hasSubList (a ++ b) n = true := by
  intro a
  induction a with
  | nil =>
    intro b h
    cases n with
    | nil => exact hasSubList_nil b
    | cons c cs => simp [hasSubList] at h
  | cons x xs ih =>
    intro b h
    simp [hasSubList, Bool.or_eq_true] at h ⊢
    rcases h with h | h
    · left; exact beginsWith_append n _ b h
    · right; exact ih b h

theorem dropWhileAll {α : Type} (p : α → Bool) (l : List α) (h : l.dropWhile p = []) :
    ∀ x ∈ l, p x = true := by
  induction l with
  | nil => intro x hx; cases hx
  | cons a t ih =>
    rw [List.dropWhile_cons] at h
    by_cases hpa : p a = true
    · rw [if_pos hpa] at h
      intro x hx
      rcases List.mem_cons.mp hx with rfl | hx
      · exact hpa
      · exact ih h x hx
    · rw [if_neg hpa] at h
      simp at h

theorem dirnameCore_ne_nil (head : List Char) (h : head ≠ []) : dirnameCore head ≠ [] := by
  unfold dirnameCore
  split_ifs with h1 h2
  · exact absurd (List.isEmpty_iff.mp h1) h
  · exact h
  · intro hnil
    apply h2
    rw [List.all_eq_true]
    intro x hx
    have hdrop : head.reverse.dropWhile (fun c => c == '/') = [] := by
      have h3 : (head.reverse.dropWhile (fun c => c == '/')).reverse = [] := hnil
      exact List.reverse_eq_nil_iff.mp h3
    exact dropWhileAll _ _ hdrop x (List.mem_reverse.mpr hx)

theorem dirnameL_ne_nil (l : List Char) (h : '/' ∈ l) : dirnameL l ≠ [] := by
  unfold dirnameL
  apply dirnameCore_ne_nil
  intro hnil
  have hdrop : l.reverse.dropWhile (fun c => c != '/') = [] :=
    List.reverse_eq_nil_iff.mp hnil
  have hall := dropWhileAll _ _ hdrop '/' (List.mem_reverse.mpr h)
  simp at hall

theorem dirname_ne_empty (p : String) (h : '/' ∈ p.data) : os_path_dirname p ≠ "" := by
  unfold os_path_dirname
  intro he
  have h2 := congrArg String.data he
  exact dirnameL_ne_nil p.data h h2

theorem join_keeps_slash (a b : String) (h : '/' ∈ b.data) : '/' ∈ (os_path_join a b).data := by
  unfold os_path_join
  split_ifs with h1 h2 h3
  · exact h
  · exact h
  · rw [strDataAppend]; exact List.mem_append_right _ h
  · rw [strDataAppend]; exact List.mem_append_right _ h

theorem dirChain_head_mem (d : String) (h : d ≠ "") (n : Nat) : d ∈ dirChain d (n + 1) := by
  simp only [dirChain]
  rw [if_neg h]
  exact List.mem_cons_self _ _

/-! ### Handler-level facts -/

theorem create_file_fst (st : BridgeState) (a b : String) :
    (create_file st a b).1 = "✅ Created: " ++ a := rfl

theorem create_file_repo (st : BridgeState) (a b : String) :
    ((create_file st a b).2).repo_path = st.repo_path := rfl

theorem create_file_log (st : BridgeState) (a b : String) :
    ((create_file st a b).2).log.length = st.log.length + 1 := by
  simp [create_file, logSt]

theorem logSt_log (st : BridgeState) (s : String) :
    (logSt st s).log.length = st.log.length + 1 := by
  simp [logSt]

theorem run_command_repo (sh : String → CmdResult) (st : BridgeState) (c : String) :
    ((run_command sh st c).2).repo_path = st.repo_path := rfl

theorem run_command_log (sh : String → CmdResult) (st : BridgeState) (c : String) :
    ((run_command sh st c).2).log.length = st.log.length + 1 := by
  simp [run_command, logSt]

theorem run_command_ne (sh : String → CmdResult) (st : BridgeState) (c : String) :
    (run_command sh st c).1 ≠ "" := by
  show (if (sh c).stdout ≠ "" ∨ (sh c).stderr ≠ ""
      then "OUT: " ++ (sh c).stdout ++ "\nERR: " ++ (sh c).stderr
      else "Command executed") ≠ ""
  split_ifs with h
  · exact appendNeEmpty _ _ (appendNeEmpty _ _ (appendNeEmpty _ _ (by decide)))
  · decide

theorem deploy_repo (sh : String → CmdResult) (st : BridgeState) (t : String) :
    ((deploy_project sh st t).2).repo_path = st.repo_path := by
  simp only [deploy_project]
  split_ifs <;> simp [run_command, logSt]

theorem deploy_github_log (sh : String → CmdResult) (st : BridgeState) :
    ((deploy_project sh st "github_pages").2).log.length = st.log.length + 2 := by
  simp [deploy_project, run_command, logSt]

theorem deploy_fst_github (sh : String → CmdResult) (st : BridgeState) :
    (deploy_project sh st "github_pages").1
      = "✅ GitHub Pages Deployed: https://yourusername.github.io/your-repo" := rfl

theorem deploy_fst_docker (sh : String → CmdResult) (st : BridgeState) :
    (deploy_project sh st "docker").1 = "✅ Docker Deployed: http://localhost:3000" := rfl

theorem deploy_fst_vercel (sh : String → CmdResult) (st : BridgeState) :
    (deploy_project sh st "vercel").1 = "✅ Vercel Deployed: https://your-app.vercel.app" := rfl

theorem deploy_other (sh : String → CmdResult) (st : BridgeState) (t : String)
    (h1 : t ≠ "github_pages") (h2 : t ≠ "docker") (h3 : t ≠ "vercel") :
    deploy_project sh st t
      = ("✅ Deployment initiated: " ++ t, logSt st ("DEPLOYMENT_STARTED: " ++ t)) := by
  simp only [deploy_project]
  rw [if_neg h1, if_neg h2, if_neg h3]

theorem deploy_ne (sh : String → CmdResult) (st : BridgeState) (t : String) :
    (deploy_project sh st t).1 ≠ "" := by
  by_cases h1 : t = "github_pages"
  · rw [h1, deploy_fst_github]; decide
  · by_cases h2 : t = "docker"
    · rw [h2, deploy_fst_docker]; decide
    · by_cases h3 : t = "vercel"
      · rw [h3, deploy_fst_vercel]; decide
      · rw [deploy_other sh st t h1 h2 h3]
        exact appendNeEmpty _ _ (by decide)

theorem start_monitoring_repo (st : BridgeState) (u : String) :
    ((start_monitoring st u).2).repo_path = st.repo_path := rfl

theorem check_health_ne (http : String → HttpResult) (st : BridgeState) :
    check_application_health http st ≠ "" := by
  unfold check_application_health
  split
  · show ("No deployment URL set" : String) ≠ ""
    decide
  · split_ifs with hu
    · show ("No deployment URL set" : String) ≠ ""
      decide
    · split
      · split_ifs with hc
        · show ("✅ Application healthy" : String) ≠ ""
          decide
        · exact appendNeEmpty _ _ (by decide)
      · exact appendNeEmpty _ _ (by decide)

theorem monitor_repo (http : String → HttpResult) (st : BridgeState) :
    (monitorStep http st).repo_path = st.repo_path := by
  simp only [monitorStep]
  split_ifs <;> simp [logSt]

theorem auto_fix_repo (sh : String → CmdResult) (st : BridgeState) (it : String) :
    ((auto_fix_issues sh st it).2).repo_path = st.repo_path := by
  simp only [auto_fix_issues]
  split_ifs <;> simp [run_command_repo, create_file_repo, deploy_repo, logSt]

theorem auto_fix_ne (sh : String → CmdResult) (st : BridgeState) (it : String) :
    (auto_fix_issues sh st it).1 ≠ "" := by
  simp only [auto_fix_issues]
  split_ifs
  · show ("✅ Build dependencies fixed" : String) ≠ ""
    decide
  · exact deploy_ne sh _ "github_pages"
  · show ("✅ Database issues addressed" : String) ≠ ""
    decide
  · exact appendNeEmpty _ _ (by decide)

theorem foldl_create_repo (files : List (String × String)) : ∀ st : BridgeState,
    (files.foldl (fun s pc => (create_file s pc.1 pc.2).2) st).repo_path = st.repo_path := by
  induction files with
  | nil => intro st; rfl
  | cons f t ih =>
    intro st
    simp only [List.foldl_cons]
    rw [ih, create_file_repo]

theorem foldl_create_log (files : List (String × String)) : ∀ st : BridgeState,
    (files.foldl (fun s pc => (create_file s pc.1 pc.2).2) st).log.length
      = st.log.length + files.length := by
  induction files with
  | nil => intro st; simp
  | cons f t ih =>
    intro st
    simp only [List.foldl_cons]
    rw [ih, create_file_log]
    simp only [List.length_cons]
    omega

theorem add_feature_repo (sh : String → CmdResult) (st : BridgeState) (fn : String)
    (fl : List (String × String)) : ((add_feature sh st fn fl).2).repo_path = st.repo_path := by
  simp only [add_feature]
  simp [deploy_repo, foldl_create_repo, logSt]

theorem add_feature_log (sh : String → CmdResult) (st : BridgeState) (fn : String)
    (fl : List (String × String)) :
    ((add_feature sh st fn fl).2).log.length = st.log.length + (fl.length + 3) := by
  simp only [add_feature]
  rw [deploy_github_log, foldl_create_log, logSt_log]
  omega

theorem add_feature_fst (sh : String → CmdResult) (st : BridgeState) (fn : String)
    (fl : List (String × String)) :
    (add_feature sh st fn fl).1 = "✅ Feature '" ++ fn ++ "' added and deployed" := rfl

theorem run_tests_repo (sh : String → CmdResult) (st : BridgeState) :
    ((run_tests sh st).2).repo_path = st.repo_path := rfl

theorem backup_repo (sh : String → CmdResult) (ts : String) (st : BridgeState) :
    ((backup_project sh ts st).2).repo_path = st.repo_path := rfl

theorem git_commit_repo (sh : String → CmdResult) (st : BridgeState) (m : String) :
    ((git_commit sh st m).2).repo_path = st.repo_path := rfl

/-! ### Dispatcher equations -/

theorem exec_create_file (env : Env) (st : BridgeState) (p : Payload) (x y : String)
    (hx : p.path = some x) (hy : p.content = some y) :
    execute_ai_instruction env st "CREATE_FILE" p
      = (some (create_file st x y).1, (create_file st x y).2) := by
  simp [execute_ai_instruction, hx, hy]

theorem exec_run_command (env : Env) (st : BridgeState) (p : Payload) (c : String)
    (hc : p.command = some c) :
    execute_ai_instruction env st "RUN_COMMAND" p
      = (some (run_command env.sh st c).1, (run_command env.sh st c).2) := by
  simp [execute_ai_instruction, hc]

theorem exec_deploy (env : Env) (st : BridgeState) (p : Payload) (dt : String)
    (hd : p.deploy_type = some dt) :
    execute_ai_instruction env st "DEPLOY_PROJECT" p
      = (some (deploy_project env.sh st dt).1, (deploy_project env.sh st dt).2) := by
  simp [execute_ai_instruction, hd]

theorem exec_start_monitoring (env : Env) (st : BridgeState) (p : Payload) (u : String)
    (hu : p.url = some u) :
    execute_ai_instruction env st "START_MONITORING" p
      = (some (start_monitoring st u).1, (start_monitoring st u).2) := by
  simp [execute_ai_instruction, hu]

theorem exec_check_health (env : Env) (st : BridgeState) (p : Payload) :
    execute_ai_instruction env st "CHECK_HEALTH" p
      = (some (check_application_health env.http st), st) := rfl

theorem exec_auto_fix (env : Env) (st : BridgeState) (p : Payload) (it : String)
    (hi : p.issue_type = some it) :
    execute_ai_instruction env st "AUTO_FIX_ISSUES" p
      = (some (auto_fix_issues env.sh st it).1, (auto_fix_issues env.sh st it).2) := by
  simp [execute_ai_instruction, hi]

theorem exec_add_feature (env : Env) (st : BridgeState) (p : Payload) (fn : String)
    (fl : List (String × String)) (hf : p.feature_name = some fn) (hl : p.files = some fl) :
    execute_ai_instruction env st "ADD_FEATURE" p
      = (some (add_feature env.sh st fn fl).1, (add_feature env.sh st fn fl).2) := by
  simp [execute_ai_instruction, hf, hl]

theorem exec_git_commit (env : Env) (st : BridgeState) (p : Payload) (m : String)
    (hm : p.message = some m) :
    execute_ai_instruction env st "GIT_COMMIT" p
      = (some (git_commit env.sh st m).1, (git_commit env.sh st m).2) := by
  simp [execute_ai_instruction, hm]

theorem exec_run_tests (env : Env) (st : BridgeState) (p : Payload) :
    execute_ai_instruction env st "RUN_TESTS" p
      = (some (run_tests env.sh st).1, (run_tests env.sh st).2) := rfl

theorem exec_backup (env : Env) (st : BridgeState) (p : Payload) :
    execute_ai_instruction env st "BACKUP_PROJECT" p
      = (some (backup_project env.sh env.timestamp st).1,
         (backup_project env.sh env.timestamp st).2) := rfl

theorem exec_unknown (env : Env) (st : BridgeState) (ty : String) (p : Payload)
    (h1 : ty ≠ "CREATE_FILE") (h2 : ty ≠ "RUN_COMMAND") (h3 : ty ≠ "DEPLOY_PROJECT")
    (h4 : ty ≠ "START_MONITORING") (h5 : ty ≠ "CHECK_HEALTH") (h6 : ty ≠ "AUTO_FIX_ISSUES")
    (h7 : ty ≠ "ADD_FEATURE") (h8 : ty ≠ "GIT_COMMIT") (h9 : ty ≠ "RUN_TESTS")
    (h10 : ty ≠ "BACKUP_PROJECT") :
    execute_ai_instruction env st ty p = (none, st) := by
  simp [execute_ai_instruction, h1, h2, h3, h4, h5, h6, h7, h8, h9, h10]

theorem exec_create_file_nopath (env : Env) (st : BridgeState) (p : Payload)
    (hx : p.path = none) :
    execute_ai_instruction env st "CREATE_FILE" p = (some (keyErr "path"), st) := by
  simp [execute_ai_instruction, hx]

theorem exec_create_file_nocontent (env : Env) (st : BridgeState) (p : Payload) (x : String)
    (hx : p.path = some x) (hy : p.content = none) :
    execute_ai_instruction env st "CREATE_FILE" p = (some (keyErr "content"), st) := by
  simp [execute_ai_instruction, hx, hy]

theorem exec_run_command_nokey (env : Env) (st : BridgeState) (p : Payload)
    (hc : p.command = none) :
    execute_ai_instruction env st "RUN_COMMAND" p = (some (keyErr "command"), st) := by
  simp [execute_ai_instruction, hc]

theorem exec_deploy_nokey (env : Env) (st : BridgeState) (p : Payload)
    (hd : p.deploy_type = none) :
    execute_ai_instruction env st "DEPLOY_PROJECT" p = (some (keyErr "deploy_type"), st) := by
  simp [execute_ai_instruction, hd]

theorem exec_start_monitoring_nokey (env : Env) (st : BridgeState) (p : Payload)
    (hu : p.url = none) :
    execute_ai_instruction env st "START_MONITORING" p = (some (keyErr "url"), st) := by
  simp [execute_ai_instruction, hu]

theorem exec_auto_fix_nokey (env : Env) (st : BridgeState) (p : Payload)
    (hi : p.issue_type = none) :
    execute_ai_instruction env st "AUTO_FIX_ISSUES" p = (some (keyErr "issue_type"), st) := by
  simp [execute_ai_instruction, hi]

theorem exec_add_feature_noname (env : Env) (st : BridgeState) (p : Payload)
    (hf : p.feature_name = none) :
    execute_ai_instruction env st "ADD_FEATURE" p = (some (keyErr "feature_name"), st) := by
  simp [execute_ai_instruction, hf]

theorem exec_add_feature_nofiles (env : Env) (st : BridgeState) (p : Payload) (fn : String)
    (hf : p.feature_name = some fn) (hl : p.files = none) :
    execute_ai_instruction env st "ADD_FEATURE" p = (some (keyErr "files"), st) := by
  simp [execute_ai_instruction, hf, hl]

theorem exec_git_commit_nokey (env : Env) (st : BridgeState) (p : Payload)
    (hm : p.message = none) :
    execute_ai_instruction env st "GIT_COMMIT" p = (some (keyErr "message"), st) := by
  simp [execute_ai_instruction, hm]

theorem strHasPre_keyErr (k : String) : strHasPre (keyErr k) "Error:" = true := by
  show beginsWith (("Error: '" ++ k) ++ "'").data ("Error:".data) = true
  rw [strDataAppend, strDataAppend]
  apply beginsWith_append
  apply beginsWith_append
  decide

theorem optNonEmpty_some (s : String) (h : s ≠ "") : optNonEmpty (some s) = true := by
  simp [optNonEmpty, bne_iff_ne]
  exact h

theorem exec_repo (env : Env) (st : BridgeState) (ty : String) (p : Payload) :
    ((execute_ai_instruction env st ty p).2).repo_path = st.repo_path := by
  unfold execute_ai_instruction
  repeat' split
  all_goals
    simp [create_file_repo, run_command_repo, deploy_repo, start_monitoring_repo,
      auto_fix_repo, add_feature_repo, run_tests_repo, backup_repo, git_commit_repo]

theorem execList_repo (env : Env) (instrs : List (String × Payload)) : ∀ st : BridgeState,
    (execList env st instrs).repo_path = st.repo_path := by
  induction instrs with
  | nil => intro st; rfl
  | cons i rest ih =>
    intro st
    cases i with
    | mk ty p =>
      simp only [execList]
      rw [ih]
      exact exec_repo env st ty p

/-! ### Claim theorems -/

/-- C1: for every instruction whose payload is missing a required key, the
dispatcher catches the `KeyError` raised by the payload lookup and returns
a string beginning with "Error:" followed by the exception's text; no
exception escapes the dispatch boundary (the result is always `some`). -/
theorem c1_missing_key_returns_error_string (env : Env) (st : BridgeState)
    (ty : String) (p : Payload) (h : missingRequired ty p) :
    optHasPre (execute_ai_instruction env st ty p).1 "Error:" = true := by
  rcases h with ⟨rfl, hk⟩ | ⟨rfl, hk⟩ | ⟨rfl, hk⟩ | ⟨rfl, hk⟩ | ⟨rfl, hk⟩ | ⟨rfl, hk⟩ | ⟨rfl, hk⟩
  · rcases hk with hk | hk
    · rw [exec_create_file_nopath env st p hk]
      exact strHasPre_keyErr "path"
    · cases hp : p.path with
      | none =>
        rw [exec_create_file_nopath env st p hp]
        exact strHasPre_keyErr "path"
      | some x =>
        rw [exec_create_file_nocontent env st p x hp hk]
        exact strHasPre_keyErr "content"
  · rw [exec_run_command_nokey env st p hk]
    exact strHasPre_keyErr "command"
  · rw [exec_deploy_nokey env st p hk]
    exact strHasPre_keyErr "deploy_type"
  · rw [exec_start_monitoring_nokey env st p hk]
    exact strHasPre_keyErr "url"
  · rw [exec_auto_fix_nokey env st p hk]
    exact strHasPre_keyErr "issue_type"
  · rcases hk with hk | hk
    · rw [exec_add_feature_noname env st p hk]
      exact strHasPre_keyErr "feature_name"
    · cases hf : p.feature_name with
      | none =>
        rw [exec_add_feature_noname env st p hf]
        exact strHasPre_keyErr "feature_name"
      | some fn =>
        rw [exec_add_feature_nofiles env st p fn hf hk]
        exact strHasPre_keyErr "files"
  · rw [exec_git_commit_nokey env st p hk]
    exact strHasPre_keyErr "message"

/-- C1 witness: a concrete CREATE_FILE instruction without "content" yields
an "Error:"-prefixed result. -/
theorem c1_witness :
    optHasPre (execute_ai_instruction env0 (initState "/repo") "CREATE_FILE"
      { emptyPayload with path := some "a/b.txt" }).1 "Error:" = true :=
  c1_missing_key_returns_error_string env0 (initState "/repo") "CREATE_FILE"
    { emptyPayload with path := some "a/b.txt" } (Or.inl ⟨rfl, Or.inr rfl⟩)

/-- C7 counterexample: the dispatcher recognizes ten action strings, not
nine. RUN_COMMAND, absent from the nine actions the startup banner
advertises, is dispatched to a handler, appends a log record and returns a
result string instead of nothing. -/
theorem c7_counterexample :
    execute_ai_instruction env0 (initState "/repo") "RUN_COMMAND"
        { emptyPayload with command := some "ls" }
      = (some "Command executed", logSt (initState "/repo") "COMMAND_RUN: ls") := by
  decide

/-- C7 (amended): for every action identifier outside the ten recognized
dispatch strings, the dispatcher invokes no handler, leaves the state
untouched and returns Python's implicit None (no result string). -/
theorem c7_unrecognized_action_returns_none (env : Env) (st : BridgeState)
    (ty : String) (p : Payload)
    (h : ty ∉ ["CREATE_FILE", "RUN_COMMAND", "DEPLOY_PROJECT", "START_MONITORING",
      "CHECK_HEALTH", "AUTO_FIX_ISSUES", "ADD_FEATURE", "GIT_COMMIT", "RUN_TESTS",
      "BACKUP_PROJECT"]) :
    execute_ai_instruction env st ty p = (none, st) := by
  simp only [List.mem_cons, List.not_mem_nil, or_false, not_or] at h
  obtain ⟨h1, h2, h3, h4, h5, h6, h7, h8, h9, h10⟩ := h
  exact exec_unknown env st ty p h1 h2 h3 h4 h5 h6 h7 h8 h9 h10

/-- C7 witness: a concrete unrecognized action returns nothing and leaves
the state unchanged. -/
theorem c7_witness :
    execute_ai_instruction env0 (initState "/repo") "NOOP" emptyPayload
      = (none, initState "/repo") :=
  c7_unrecognized_action_returns_none env0 (initState "/repo") "NOOP" emptyPayload (by decide)

/-- C8: the working directory is set once at construction and never
modified by any handler or by the background poll loop: after any sequence
of dispatched instructions, and across a poll iteration, `repo_path`
equals its startup value. -/
theorem c8_repo_path_immutable (env : Env) (st : BridgeState)
    (instrs : List (String × Payload)) :
    (execList env st instrs).repo_path = st.repo_path ∧
    (monitorStep env.http st).repo_path = st.repo_path :=
  ⟨execList_repo env instrs st, monitor_repo env.http st⟩

/-- C9: a CHECK_HEALTH dispatch is read-only: it returns the health string
and hands back the bridge state unchanged (working directory, deployment
URL, monitoring flag, files and log all preserved, so no log record is
appended), for every state and every HTTP outcome. -/
theorem c9_check_health_readonly (env : Env) (st : BridgeState) (p : Payload) :
    execute_ai_instruction env st "CHECK_HEALTH" p
      = (some (check_application_health env.http st), st) := rfl

/-- C10: run_command's return value depends only on the captured stdout
and stderr text, never on the exit code: two shells agreeing on output
text give identical results; empty output yields the literal "Command
executed" and non-empty output yields "OUT: <stdout>\nERR: <stderr>". -/
theorem c10_run_command_ignores_exit_code (sh sh2 : String → CmdResult)
    (st : BridgeState) (c : String)
    (hout : (sh c).stdout = (sh2 c).stdout) (herr : (sh c).stderr = (sh2 c).stderr) :
    run_command sh st c = run_command sh2 st c ∧
    ((sh c).stdout = "" ∧ (sh c).stderr = "" → (run_command sh st c).1 = "Command executed") ∧
    ((sh c).stdout ≠ "" ∨ (sh c).stderr ≠ "" →
      (run_command sh st c).1 = "OUT: " ++ (sh c).stdout ++ "\nERR: " ++ (sh c).stderr) := by
  refine ⟨?_, ?_, ?_⟩
  · simp [run_command, hout, herr]
  · intro h
    simp [run_command, h.1, h.2]
  · intro h
    simp [run_command, h]

/-- C10 witness: a failing command (exit 1) with empty output is
indistinguishable from a successful one (exit 0). -/
theorem c10_witness :
    run_command shQuiet (initState "/repo") "make"
      = run_command shFail (initState "/repo") "make" ∧
    (run_command shQuiet (initState "/repo") "make").1 = "Command executed" :=
  ⟨(c10_run_command_ignores_exit_code shQuiet shFail (initState "/repo") "make" rfl rfl).1,
   (c10_run_command_ignores_exit_code shQuiet shFail (initState "/repo") "make" rfl rfl).2.1
     ⟨rfl, rfl⟩⟩

/-- C2: health-check classification. With no deployment URL recorded the
result is exactly "No deployment URL set"; with a URL recorded, HTTP 200
gives the healthy string, a non-200 status gives an issue string that
contains the status code, and a raised request exception gives an error
string that contains the failure description. -/
theorem c2_health_check_classification (http : String → HttpResult) (st : BridgeState) :
    (st.deployment_url = none → check_application_health http st = "No deployment URL set") ∧
    (∀ u, st.deployment_url = some u → u ≠ "" →
      ((http u = HttpResult.success 200 →
          check_application_health http st = "✅ Application healthy") ∧
       (∀ c, http u = HttpResult.success c → c ≠ 200 →
          containsStr (check_application_health http st) (toString c) = true ∧
          containsStr (check_application_health http st) "issue" = true) ∧
       (∀ m, http u = HttpResult.failure m →
          containsStr (check_application_health http st) m = true ∧
          containsStr (check_application_health http st) "error" = true))) := by
  refine ⟨?_, ?_⟩
  · intro h
    simp [check_application_health, h]
  · intro u hu hne
    refine ⟨?_, ?_, ?_⟩
    · intro hh
      simp [check_application_health, hu, hne, hh]
    · intro c hh hc
      have hcheck : check_application_health http st = "❌ Application issue: HTTP " ++ toString c := by
        simp [check_application_health, hu, hne, hh, hc]
      rw [hcheck]
      constructor
      · show hasSubList ("❌ Application issue: HTTP " ++ toString c).data (toString c).data = true
        rw [strDataAppend]
        exact hasSubList_suffix _ _
      · show hasSubList ("❌ Application issue: HTTP " ++ toString c).data ("issue").data = true
        rw [strDataAppend]
        exact hasSubList_extend _ _ _ (by decide)
    · intro m hh
      have hcheck : check_application_health http st = "❌ Application error: " ++ m := by
        simp [check_application_health, hu, hne, hh]
      rw [hcheck]
      constructor
      · show hasSubList ("❌ Application error: " ++ m).data m.data = true
        rw [strDataAppend]
        exact hasSubList_suffix _ _
      · show hasSubList ("❌ Application error: " ++ m).data ("error").data = true
        rw [strDataAppend]
        exact hasSubList_extend _ _ _ (by decide)

/-- C2 witness: concrete runs of the four classification branches. -/
theorem c2_witness :
    check_application_health http200 (initState "/repo") = "No deployment URL set" ∧
    check_application_health http200 stUrl = "✅ Application healthy" ∧
    containsStr (check_application_health http500 stUrl) (toString 500) = true ∧
    containsStr (check_application_health http500 stUrl) "issue" = true ∧
    containsStr (check_application_health httpFail stUrl) "connection refused" = true ∧
    containsStr (check_application_health httpFail stUrl) "error" = true := by
  refine ⟨?_, ?_, ?_, ?_, ?_, ?_⟩
  · exact (c2_health_check_classification http200 (initState "/repo")).1 rfl
  · exact ((c2_health_check_classification http200 stUrl).2 "http://localhost:3000" rfl
      (by decide)).1 rfl
  · exact (((c2_health_check_classification http500 stUrl).2 "http://localhost:3000" rfl
      (by decide)).2.1 500 rfl (by decide)).1
  · exact (((c2_health_check_classification http500 stUrl).2 "http://localhost:3000" rfl
      (by decide)).2.1 500 rfl (by decide)).2
  · exact (((c2_health_check_classification httpFail stUrl).2 "http://localhost:3000" rfl
      (by decide)).2.2 "connection refused" rfl).1
  · exact (((c2_health_check_classification httpFail stUrl).2 "http://localhost:3000" rfl
      (by decide)).2.2 "connection refused" rfl).2

/-- C3 counterexample: an unrecognized deploy type ("heroku") leaves the
deployment-endpoint field unchanged (still absent) and the confirmation
string carries no endpoint, refuting the claim's "every ... other string"
clause. -/
theorem c3_counterexample :
    ((deploy_project shQuiet (initState "/repo") "heroku").2).deployment_url = none ∧
    (deploy_project shQuiet (initState "/repo") "heroku").1
      = "✅ Deployment initiated: heroku" := by
  exact ⟨rfl, rfl⟩

/-- C3 (amended): for each of the three known deploy types the fixed shell
recipe is run (visible as the COMMAND_RUN log record), the endpoint field
is overwritten with the hard-coded endpoint, and the confirmation contains
that endpoint; any other deploy type runs no recipe, leaves the endpoint
unchanged and returns "✅ Deployment initiated: <type>". -/
theorem c3_amended_deploy_types (sh : String → CmdResult) (st : BridgeState) :
    (((deploy_project sh st "github_pages").2).deployment_url
        = some "https://yourusername.github.io/your-repo" ∧
      containsStr (deploy_project sh st "github_pages").1
        "https://yourusername.github.io/your-repo" = true ∧
      ((deploy_project sh st "github_pages").2).log
        = st.log ++ ["DEPLOYMENT_STARTED: github_pages",
            "COMMAND_RUN: gh pages deploy --branch main"]) ∧
    (((deploy_project sh st "docker").2).deployment_url = some "http://localhost:3000" ∧
      containsStr (deploy_project sh st "docker").1 "http://localhost:3000" = true ∧
      ((deploy_project sh st "docker").2).log
        = st.log ++ ["DEPLOYMENT_STARTED: docker",
            "COMMAND_RUN: docker build -t app . && docker run -d -p 3000:3000 app"]) ∧
    (((deploy_project sh st "vercel").2).deployment_url = some "https://your-app.vercel.app" ∧
      containsStr (deploy_project sh st "vercel").1 "https://your-app.vercel.app" = true ∧
      ((deploy_project sh st "vercel").2).log
        = st.log ++ ["DEPLOYMENT_STARTED: vercel", "COMMAND_RUN: npx vercel --prod"]) ∧
    (∀ t, t ≠ "github_pages" → t ≠ "docker" → t ≠ "vercel" →
      deploy_project sh st t
        = ("✅ Deployment initiated: " ++ t, logSt st ("DEPLOYMENT_STARTED: " ++ t))) := by
  refine ⟨⟨rfl, ?_, ?_⟩, ⟨rfl, ?_, ?_⟩, ⟨rfl, ?_, ?_⟩, ?_⟩
  · rw [deploy_fst_github]
    decide
  · simp [deploy_project, run_command, logSt]
  · rw [deploy_fst_docker]
    decide
  · simp [deploy_project, run_command, logSt]
  · rw [deploy_fst_vercel]
    decide
  · simp [deploy_project, run_command, logSt]
  · intro t h1 h2 h3
    exact deploy_other sh st t h1 h2 h3

/-- C3 witness: the amended unknown-type clause applied at "heroku". -/
theorem c3_witness :
    deploy_project shQuiet (initState "/repo") "heroku"
      = ("✅ Deployment initiated: " ++ "heroku",
         logSt (initState "/repo") ("DEPLOYMENT_STARTED: " ++ "heroku")) :=
  (c3_amended_deploy_types shQuiet (initState "/repo")).2.2.2 "heroku"
    (by decide) (by decide) (by decide)

/-- C4 counterexample: a single DEPLOY_PROJECT dispatch on a known type
appends two log records (DEPLOYMENT_STARTED and COMMAND_RUN), not exactly
one. -/
theorem c4_counterexample :
    ((execute_ai_instruction env0 (initState "/repo") "DEPLOY_PROJECT"
        { emptyPayload with deploy_type := some "github_pages" }).2).log.length
      = (initState "/repo").log.length + 2 ∧
    ¬(((execute_ai_instruction env0 (initState "/repo") "DEPLOY_PROJECT"
        { emptyPayload with deploy_type := some "github_pages" }).2).log.length
      = (initState "/repo").log.length + 1) := by
  exact ⟨by decide, by decide⟩

/-- C4 (amended): every valid instruction with all required keys present
returns a non-empty result string; the number of appended log records is
per-action rather than uniformly one: DEPLOY_PROJECT on github_pages
appends exactly two and ADD_FEATURE with n files appends exactly n + 3. -/
theorem c4_amended_valid_instructions (env : Env) (st : BridgeState) :
    (∀ ty p, validInstr ty p →
      optNonEmpty (execute_ai_instruction env st ty p).1 = true) ∧
    (∀ p, p.deploy_type = some "github_pages" →
      ((execute_ai_instruction env st "DEPLOY_PROJECT" p).2).log.length
        = st.log.length + 2) ∧
    (∀ p fn fl, p.feature_name = some fn → p.files = some fl →
      ((execute_ai_instruction env st "ADD_FEATURE" p).2).log.length
        = st.log.length + (fl.length + 3)) := by
  refine ⟨?_, ?_, ?_⟩
  · intro ty p h
    rcases h with ⟨rfl, h1, h2⟩ | ⟨rfl, h1⟩ | ⟨rfl, h1⟩ | ⟨rfl, h1⟩ | rfl | ⟨rfl, h1⟩ |
      ⟨rfl, h1, h2⟩ | ⟨rfl, h1⟩ | rfl | rfl
    · obtain ⟨x, hx⟩ := Option.isSome_iff_exists.mp h1
      obtain ⟨y, hy⟩ := Option.isSome_iff_exists.mp h2
      rw [exec_create_file env st p x y hx hy]
      exact optNonEmpty_some _ (by
        rw [create_file_fst]
        exact appendNeEmpty _ _ (by decide))
    · obtain ⟨c, hc⟩ := Option.isSome_iff_exists.mp h1
      rw [exec_run_command env st p c hc]
      exact optNonEmpty_some _ (run_command_ne env.sh st c)
    · obtain ⟨dt, hd⟩ := Option.isSome_iff_exists.mp h1
      rw [exec_deploy env st p dt hd]
      exact optNonEmpty_some _ (deploy_ne env.sh st dt)
    · obtain ⟨u, hu⟩ := Option.isSome_iff_exists.mp h1
      rw [exec_start_monitoring env st p u hu]
      exact optNonEmpty_some _ (appendNeEmpty _ _ (by decide))
    · rw [exec_check_health env st p]
      exact optNonEmpty_some _ (check_health_ne env.http st)
    · obtain ⟨it, hi⟩ := Option.isSome_iff_exists.mp h1
      rw [exec_auto_fix env st p it hi]
      exact optNonEmpty_some _ (auto_fix_ne env.sh st it)
    · obtain ⟨fn, hf⟩ := Option.isSome_iff_exists.mp h1
      obtain ⟨fl, hl⟩ := Option.isSome_iff_exists.mp h2
      rw [exec_add_feature env st p fn fl hf hl]
      exact optNonEmpty_some _ (by
        rw [add_feature_fst]
        exact appendNeEmpty _ _ (appendNeEmpty _ _ (by decide)))
    · obtain ⟨m, hm⟩ := Option.isSome_iff_exists.mp h1
      rw [exec_git_commit env st p m hm]
      exact optNonEmpty_some _ (appendNeEmpty _ _ (by decide))
    · rw [exec_run_tests env st p]
      exact optNonEmpty_some _ (appendNeEmpty _ _ (by decide))
    · rw [exec_backup env st p]
      exact optNonEmpty_some _ (appendNeEmpty _ _ (by decide))
  · intro p hp
    rw [exec_deploy env st p "github_pages" hp]
    exact deploy_github_log env.sh st
  · intro p fn fl hf hl
    rw [exec_add_feature env st p fn fl hf hl]
    exact add_feature_log env.sh st fn fl

/-- C4 witness: concrete valid dispatches showing the non-empty result and
the concrete log growth of DEPLOY_PROJECT (two records) and ADD_FEATURE
with one file (four records). -/
theorem c4_witness :
    optNonEmpty (execute_ai_instruction env0 (initState "/repo")
      "CHECK_HEALTH" emptyPayload).1 = true ∧
    ((execute_ai_instruction env0 (initState "/repo") "DEPLOY_PROJECT"
        { emptyPayload with deploy_type := some "github_pages" }).2).log.length
      = (initState "/repo").log.length + 2 ∧
    ((execute_ai_instruction env0 (initState "/repo") "ADD_FEATURE"
        { emptyPayload with
            feature_name := some "f", files := some [("a/b.txt", "x")] }).2).log.length
      = (initState "/repo").log.length + ([("a/b.txt", "x")].length + 3) := by
  refine ⟨?_, ?_, ?_⟩
  · exact (c4_amended_valid_instructions env0 (initState "/repo")).1 "CHECK_HEALTH"
      emptyPayload (Or.inr (Or.inr (Or.inr (Or.inr (Or.inl rfl)))))
  · exact (c4_amended_valid_instructions env0 (initState "/repo")).2.1
      { emptyPayload with deploy_type := some "github_pages" } rfl
  · exact (c4_amended_valid_instructions env0 (initState "/repo")).2.2
      { emptyPayload with
          feature_name := some "f", files := some [("a/b.txt", "x")] }
      "f" [("a/b.txt", "x")] rfl rfl

/-- C5: evidence of the monitor-loop defect. With monitoring active, a
recorded URL and the endpoint answering HTTP 500, the health check
reports an issue, yet the string contains no uppercase "ERROR", so the
poll iteration appends no HEALTH_ISSUE record and leaves the state
unchanged — the logging branch is unreachable for HTTP issues. -/
theorem c5_monitor_never_logs_http_issue :
    check_application_health http500 stMon = "❌ Application issue: HTTP 500" ∧
    containsStr (check_application_health http500 stMon) "ERROR" = false ∧
    monitorStep http500 stMon = stMon := by
  exact ⟨by decide, by decide, by decide⟩

/-- C6: create_file round-trip for a relative path with a parent
directory component: the confirmation names the path, reading the path
back yields exactly the written content, the parent directory was
created, and repeating the creation returns the same confirmation and
leaves the same file content. -/
theorem c6_create_file_roundtrip (st : BridgeState) (P C : String)
    (hrel : beginsWith P.data ['/'] = false) (hpar : '/' ∈ P.data) :
    (create_file st P C).1 = "✅ Created: " ++ P ∧
    readFile (create_file st P C).2 P = some C ∧
    os_path_dirname (os_path_join st.repo_path P) ∈ ((create_file st P C).2).dirs ∧
    (create_file (create_file st P C).2 P C).1 = (create_file st P C).1 ∧
    readFile (create_file (create_file st P C).2 P C).2 P = some C := by
  refine ⟨rfl, ?_, ?_, rfl, ?_⟩
  · simp [readFile, create_file, logSt, fsLookup]
  · have hslash : '/' ∈ (os_path_join st.repo_path P).data := join_keeps_slash _ _ hpar
    have hne : os_path_dirname (os_path_join st.repo_path P) ≠ "" :=
      dirname_ne_empty _ hslash
    show os_path_dirname (os_path_join st.repo_path P)
        ∈ dirChain (os_path_dirname (os_path_join st.repo_path P))
            ((os_path_dirname (os_path_join st.repo_path P)).data.length + 1) ++ st.dirs
    exact List.mem_append_left _ (dirChain_head_mem _ hne _)
  · simp [readFile, create_file, logSt, fsLookup]

/-- C6 witness: the round-trip at the spec's own example input. -/
theorem c6_witness :
    (create_file (initState "/repo") "out/x.txt" "hi").1 = "✅ Created: " ++ "out/x.txt" ∧
    readFile (create_file (initState "/repo") "out/x.txt" "hi").2 "out/x.txt" = some "hi" ∧
    os_path_dirname (os_path_join (initState "/repo").repo_path "out/x.txt")
      ∈ ((create_file (initState "/repo") "out/x.txt" "hi").2).dirs ∧
    (create_file (create_file (initState "/repo") "out/x.txt" "hi").2 "out/x.txt" "hi").1
      = (create_file (initState "/repo") "out/x.txt" "hi").1 ∧
    readFile (create_file (create_file (initState "/repo") "out/x.txt" "hi").2
      "out/x.txt" "hi").2 "out/x.txt" = some "hi" :=
  c6_create_file_roundtrip (initState "/repo") "out/x.txt" "hi" (by decide) (by decide)

end AIBridge
